import Mathlib

/-
Shallow embedding of the event-sourcing core of the listicle-extension
repository: the domain event model (src/domain/common), the two List
aggregate variants (src/unnamed/part_007), the Item aggregate
(src/domain/item/Item.ts), the Dexie-backed projection database
(src/unnamed/part_019) and the event store (src/stores/eventStore.ts).

Modelling conventions:
- JS Date values are modelled as natural-number instants threaded in as a
  `now` parameter wherever the source calls `new Date()`.
- JS exceptions are modelled with `Except String` for constructors and with
  a `state × Option String` result for mutators that throw after partial
  field assignments (the Option carries the thrown message; on `some` the
  returned state is exactly what the in-place JS mutation left behind).
- The source stores the live aggregate object as event payload
  (`createListCreatedEvent(this, ...)`); we record the snapshot of the
  aggregate at emission time, which is what the payload holds at that
  moment.
- JS string truthiness (empty string is falsy) is modelled explicitly where
  the source relies on it.
-/

namespace Listicle

/-- Snapshot carried by List domain events: the fields the projection
handlers and `apply` methods read off the payload (`name`, `icon`, `color`
getters, `metadata?.description`, `createdAt`, `updatedAt`, `_deleted`). -/
structure ListSnapshot where
  name : String
  icon : String
  color : String
  description : Option String
  createdAt : Nat
  updatedAt : Nat
  deleted : Bool
deriving DecidableEq, Repr

/-- One element of a JSON-LD `image` array: a string or an object with an
optional `url` field (`none` models a missing or falsy `url`). -/
inductive JLImageElem where
  | estr (s : String)
  | eobj (url : Option String)
deriving DecidableEq, Repr

/-- The `image` field of a JSON-LD payload: a string, an object with an
optional `url`, or an array (only its head is ever read by the source). -/
inductive JLImage where
  | jstr (s : String)
  | jobj (url : Option String)
  | jarr (head : Option JLImageElem)
deriving DecidableEq, Repr

/-- The JSON-LD fields read by `extractNormalizedFields`
(src/unnamed/part_017). `none` models an absent field. -/
structure JsonLdPayload where
  atId : Option String
  url : Option String
  identifier : Option String
  name : Option String
  title : Option String
  headline : Option String
  image : Option JLImage
  description : Option String
  summary : Option String
  abstract : Option String
  atType : Option String
deriving DecidableEq, Repr

/-- Snapshot carried by Item domain events (`Item.toSnapshot`,
src/domain/item/Item.ts lines 195-208). -/
structure ItemSnapshot where
  id : String
  name : String
  url : String
  image : Option String
  description : Option String
  type : String
  jsonLd : JsonLdPayload
  createdAt : Nat
  updatedAt : Nat
  deleted : Bool
deriving DecidableEq, Repr

/-- Event payloads: List snapshots, Item snapshots, triple data
(`{subject, predicate, object}` with entities reduced to their ids, the
only field the handlers read), or anything else. -/
inductive EventData where
  | listSnap (s : ListSnapshot)
  | itemSnap (s : ItemSnapshot)
  | triple (subject : String) (predicate : String) (object : String)
  | other
deriving DecidableEq, Repr

/-- DomainEvent interface (src/domain/common/DomainEvent.ts). -/
structure DomainEvent where
  type : String
  data : EventData
  timestamp : Nat
  aggregateId : String
  sequenceNo : Nat
deriving DecidableEq, Repr

/-- `createDomainEvent` factory; `timestamp` is the `new Date()` instant. -/
def createDomainEvent (type : String) (data : EventData) (aggregateId : String)
    (sequenceNo : Nat) (now : Nat) : DomainEvent :=
  { type := type, data := data, timestamp := now, aggregateId := aggregateId,
    sequenceNo := sequenceNo }

/- String values of the `Predicate` enum
(src/domain/common/AggregateRoot.ts lines 169-180). -/
namespace Predicate

def CONTAINS : String := "contains"

def ORDERED_BY : String := "ordered_by"

def BELONGS_TO : String := "belongs_to"

def TAGGED_WITH : String := "tagged_with"

def RELATED_TO : String := "related_to"

end Predicate

/-- `createTripleEvent` (src/domain/common/TripleEvent.ts): type is always
"TripleEvent", data holds subject, predicate and object. -/
def createTripleEvent (subjectId : String) (predicate : String) (objectId : String)
    (aggregateId : String) (sequenceNo : Nat) (now : Nat) : DomainEvent :=
  { type := "TripleEvent", data := .triple subjectId predicate objectId,
    timestamp := now, aggregateId := aggregateId, sequenceNo := sequenceNo }

/-! ### ListMetadata value object (src/domain/list/ListMetadata.ts) -/

structure ListMetadata where
  name : String
  icon : String
  color : String
deriving DecidableEq, Repr

/-- JS `s.trim().length`: length after stripping whitespace from both
ends, computed on the character list. -/
def jsTrimmedLength (s : String) : Nat :=
  (((s.toList.dropWhile Char.isWhitespace).reverse.dropWhile
    Char.isWhitespace).reverse).length

/-- JS `a.toLowerCase() === b`, computed on the character lists. -/
def lowerEq (a b : String) : Bool :=
  a.toList.map Char.toLower == b.toList

/-- `validateName`: rejects empty (JS `!name` or blank after trim) and
names longer than 100 characters. -/
def validateName (name : String) : Except String Unit :=
  if name = "" || jsTrimmedLength name == 0 then
    .error "List name cannot be empty"
  else if name.length > 100 then
    .error "List name cannot exceed 100 characters"
  else
    .ok ()

/-- `validateIcon`: rejects empty and icons longer than 50 characters. -/
def validateIcon (icon : String) : Except String Unit :=
  if icon = "" || jsTrimmedLength icon == 0 then
    .error "List icon cannot be empty"
  else if icon.length > 50 then
    .error "List icon cannot exceed 50 characters"
  else
    .ok ()

/-- A hexadecimal digit as matched by the character class [A-Fa-f0-9]. -/
def isHexDigitChar (c : Char) : Bool :=
  c.isDigit || ('a' ≤ c && c ≤ 'f') || ('A' ≤ c && c ≤ 'F')

/-- The regex ^#([A-Fa-f0-9]{6}|[A-Fa-f0-9]{3})$ from `validateColor`. -/
def isHexColor (s : String) : Bool :=
  match s.toList with
  | '#' :: rest => (rest.length == 6 || rest.length == 3) && rest.all isHexDigitChar
  | _ => false

/-- The CSS colour-name allow list from `validateColor`. -/
def cssColorNames : List String :=
  ["red", "blue", "green", "yellow", "orange", "purple", "pink", "brown",
   "black", "white", "gray", "grey", "cyan", "magenta", "lime", "navy",
   "olive", "teal", "silver", "maroon"]

/-- `validateColor`: empty check, then hex pattern or case-insensitive CSS
colour-name membership. -/
def validateColor (color : String) : Except String Unit :=
  if color = "" || jsTrimmedLength color == 0 then
    .error "List color cannot be empty"
  else if !isHexColor color && !(cssColorNames.any (fun n => lowerEq color n)) then
    .error "List color must be a valid hex color (#RRGGBB) or CSS color name"
  else
    .ok ()

/-- The ListMetadata constructor: validates name, icon, then color, and
only then stores the fields. -/
def mkListMetadata (name icon color : String) : Except String ListMetadata := do
  validateName name
  validateIcon icon
  validateColor color
  .ok { name := name, icon := icon, color := color }

namespace ListMetadata

/-- `withName` returns a freshly constructed (re-validated) instance. -/
def withName (m : ListMetadata) (newName : String) : Except String ListMetadata :=
  mkListMetadata newName m.icon m.color

/-- `withIcon` returns a freshly constructed (re-validated) instance. -/
def withIcon (m : ListMetadata) (newIcon : String) : Except String ListMetadata :=
  mkListMetadata m.name newIcon m.color

/-- `withColor` returns a freshly constructed (re-validated) instance. -/
def withColor (m : ListMetadata) (newColor : String) : Except String ListMetadata :=
  mkListMetadata m.name m.icon newColor

end ListMetadata

/-! ### Sorting of uncommitted events (Entity / AggregateRoot,
src/unnamed/part_005 and src/domain/common/AggregateRoot.ts) -/

/-- The comparator `(a, b) => a.sequenceNo - b.sequenceNo` used by
`getAllUncommittedEvents`: ascending order on `sequenceNo`. -/
def seqLe (a b : DomainEvent) : Prop := a.sequenceNo ≤ b.sequenceNo

instance : DecidableRel seqLe := fun a b => inferInstanceAs (Decidable (a.sequenceNo ≤ b.sequenceNo))

instance : IsTotal DomainEvent seqLe := ⟨fun a b => Nat.le_total a.sequenceNo b.sequenceNo⟩

instance : IsTrans DomainEvent seqLe := ⟨fun _ _ _ h1 h2 => Nat.le_trans h1 h2⟩

/-- JS `Array.prototype.sort` with a numeric comparator is a stable
ascending sort; we model it with the (stable) insertion sort. -/
def sortBySeq (es : List DomainEvent) : List DomainEvent :=
  List.insertionSort seqLe es

/-- `AggregateRoot.getAllUncommittedEvents`: the root buffer, then every
child buffer in order, then sort by `sequenceNo`. -/
def getAllUncommittedEvents (root : List DomainEvent)
    (children : List (List DomainEvent)) : List DomainEvent :=
  sortBySeq (root ++ children.flatten)

/-! ### List aggregate, first variant (src/unnamed/part_007 lines 1-335):
carries a `_deleted` flag, guards every mutator on it, and has an
idempotent `delete`. -/

structure ListAggV1 where
  id : String
  version : Nat
  sequenceNo : Nat
  committed : List DomainEvent
  uncommitted : List DomainEvent
  metadata : ListMetadata
  createdAt : Nat
  updatedAt : Nat
  deleted : Bool
deriving DecidableEq, Repr

namespace ListAggV1

/-- The payload recorded when this aggregate emits a List event: its state
at emission time, as read through the getters and private fields. Its
`ListMetadata` has no description field, so `metadata?.description` is
`none`. -/
def snapshot (l : ListAggV1) : ListSnapshot :=
  { name := l.metadata.name, icon := l.metadata.icon, color := l.metadata.color,
    description := none, createdAt := l.createdAt, updatedAt := l.updatedAt,
    deleted := l.deleted }

/-- The `apply` override: switch on the event type; unknown types are
ignored. A List payload that is not a List snapshot is only reachable by
hydrating with foreign events and is left as a state no-op here (the
source would fail reading fields of the malformed payload). -/
def apply (l : ListAggV1) (e : DomainEvent) : ListAggV1 :=
  match e.type, e.data with
  | "ListCreated", .listSnap d =>
      { l with metadata := { name := d.name, icon := d.icon, color := d.color },
               createdAt := e.timestamp, updatedAt := e.timestamp, deleted := false }
  | "ListUpdated", .listSnap d =>
      { l with metadata := { name := d.name, icon := d.icon, color := d.color },
               updatedAt := e.timestamp, deleted := d.deleted }
  | "ListDeleted", .listSnap d =>
      { l with deleted := d.deleted, updatedAt := e.timestamp }
  | "TripleEvent", _ =>
      { l with updatedAt := e.timestamp }
  | _, _ => l

/-- `Entity.applyEvent`: bump `sequenceNo`, run `apply`, push onto the
uncommitted buffer. -/
def applyEvent (l : ListAggV1) (e : DomainEvent) : ListAggV1 :=
  let l := { l with sequenceNo := l.sequenceNo + 1 }
  let l := l.apply e
  { l with uncommitted := l.uncommitted ++ [e] }

/-- `Entity.hydrate`: clear state, replay every event through `apply`,
taking `sequenceNo` from each event. -/
def hydrate (l : ListAggV1) (events : List DomainEvent) : ListAggV1 :=
  let l := { l with committed := [], uncommitted := [], sequenceNo := 0 }
  events.foldl
    (fun l e =>
      let l := l.apply e
      { l with committed := l.committed ++ [e], sequenceNo := e.sequenceNo })
    l

/-- The public constructor `new List(name, icon, color, id?, version)`:
builds (and validates) the metadata, stamps both dates. The generated id
of the source (time plus random token) is passed in as a parameter. -/
def construct (name icon color : String) (id : String) (version : Nat) (now : Nat) :
    Except String ListAggV1 := do
  let m ← mkListMetadata name icon color
  .ok { id := id, version := version, sequenceNo := 0, committed := [],
        uncommitted := [], metadata := m, createdAt := now, updatedAt := now,
        deleted := false }

/-- `List.create`: construct, then apply a ListCreated event carrying the
aggregate as payload. -/
def create (name icon color : String) (id : String) (now : Nat) :
    Except String ListAggV1 := do
  let l ← construct name icon color id 1 now
  let ev := createDomainEvent "ListCreated" (.listSnap l.snapshot) l.id
    (l.sequenceNo + 1) now
  .ok (l.applyEvent ev)

/-- `List.fromEvents`: constructs `new List('', '', '', id, 1)` and then
hydrates. The empty-string metadata is validated by the constructor. -/
def fromEvents (id : String) (events : List DomainEvent) : Except String ListAggV1 := do
  let l ← construct "" "" "" id 1 0
  .ok (l.hydrate events)

/-- `rename`: deleted guard, no-op on equal name, rebuild metadata via
`withName` (which throws on invalid input before any field is assigned),
stamp `updatedAt`, emit ListUpdated. -/
def rename (l : ListAggV1) (newName : String) (now : Nat) :
    ListAggV1 × Option String :=
  if l.deleted then (l, some "Cannot rename a deleted list")
  else if l.metadata.name = newName then (l, none)
  else
    match l.metadata.withName newName with
    | .error msg => (l, some msg)
    | .ok m =>
        let l := { l with metadata := m, updatedAt := now }
        let ev := createDomainEvent "ListUpdated" (.listSnap l.snapshot) l.id
          (l.sequenceNo + 1) now
        (l.applyEvent ev, none)

/-- `changeIcon`: same shape as `rename`. -/
def changeIcon (l : ListAggV1) (newIcon : String) (now : Nat) :
    ListAggV1 × Option String :=
  if l.deleted then (l, some "Cannot change icon of a deleted list")
  else if l.metadata.icon = newIcon then (l, none)
  else
    match l.metadata.withIcon newIcon with
    | .error msg => (l, some msg)
    | .ok m =>
        let l := { l with metadata := m, updatedAt := now }
        let ev := createDomainEvent "ListUpdated" (.listSnap l.snapshot) l.id
          (l.sequenceNo + 1) now
        (l.applyEvent ev, none)

/-- `changeColor`: same shape as `rename`. -/
def changeColor (l : ListAggV1) (newColor : String) (now : Nat) :
    ListAggV1 × Option String :=
  if l.deleted then (l, some "Cannot change color of a deleted list")
  else if l.metadata.color = newColor then (l, none)
  else
    match l.metadata.withColor newColor with
    | .error msg => (l, some msg)
    | .ok m =>
        let l := { l with metadata := m, updatedAt := now }
        let ev := createDomainEvent "ListUpdated" (.listSnap l.snapshot) l.id
          (l.sequenceNo + 1) now
        (l.applyEvent ev, none)

/-- `delete`: early return when already deleted, otherwise set the flag,
stamp `updatedAt` and emit ListDeleted. Never throws. -/
def delete (l : ListAggV1) (now : Nat) : ListAggV1 :=
  if l.deleted then l
  else
    let l := { l with deleted := true, updatedAt := now }
    let ev := createDomainEvent "ListDeleted" (.listSnap l.snapshot) l.id
      (l.sequenceNo + 1) now
    l.applyEvent ev

/-- `addItem(item)`: deleted guard, then emit a TripleEvent
(list CONTAINS item). No duplicate check of any kind. -/
def addItem (l : ListAggV1) (itemId : String) (now : Nat) :
    ListAggV1 × Option String :=
  if l.deleted then (l, some "Cannot add items to a deleted list")
  else
    let ev := createTripleEvent l.id Predicate.CONTAINS itemId l.id
      (l.sequenceNo + 1) now
    (l.applyEvent ev, none)

/-- `removeItem(itemId)`: deleted guard, then emit a TripleEvent with the
same CONTAINS predicate as `addItem`. No membership check. -/
def removeItem (l : ListAggV1) (itemId : String) (now : Nat) :
    ListAggV1 × Option String :=
  if l.deleted then (l, some "Cannot remove items from a deleted list")
  else
    let ev := createTripleEvent l.id Predicate.CONTAINS itemId l.id
      (l.sequenceNo + 1) now
    (l.applyEvent ev, none)

end ListAggV1

/-! ### List aggregate, second variant (src/unnamed/part_007 lines
337-638): the one exported from src/domain/list/List.ts and imported by
listService (its `create` takes a description argument). It has no
`_deleted` flag and no guards, and its `delete` emits on every call. -/

structure ListAggV2 where
  id : String
  version : Nat
  sequenceNo : Nat
  committed : List DomainEvent
  uncommitted : List DomainEvent
  metadata : ListMetadata
  createdAt : Nat
  updatedAt : Nat
deriving DecidableEq, Repr

namespace ListAggV2

/-- Event payload snapshot; the `deleted` field of the snapshot type is
unused by this variant and recorded as `false`. -/
def snapshot (l : ListAggV2) : ListSnapshot :=
  { name := l.metadata.name, icon := l.metadata.icon, color := l.metadata.color,
    description := none, createdAt := l.createdAt, updatedAt := l.updatedAt,
    deleted := false }

/-- The `apply` override of the second variant: no deleted handling. -/
def apply (l : ListAggV2) (e : DomainEvent) : ListAggV2 :=
  match e.type, e.data with
  | "ListCreated", .listSnap d =>
      { l with metadata := { name := d.name, icon := d.icon, color := d.color },
               createdAt := e.timestamp, updatedAt := e.timestamp }
  | "ListUpdated", .listSnap d =>
      { l with metadata := { name := d.name, icon := d.icon, color := d.color },
               updatedAt := e.timestamp }
  | "ListDeleted", _ =>
      { l with updatedAt := e.timestamp }
  | "TripleEvent", _ =>
      { l with updatedAt := e.timestamp }
  | _, _ => l

/-- `Entity.applyEvent` for the second variant. -/
def applyEvent (l : ListAggV2) (e : DomainEvent) : ListAggV2 :=
  let l := { l with sequenceNo := l.sequenceNo + 1 }
  let l := l.apply e
  { l with uncommitted := l.uncommitted ++ [e] }

/-- `Entity.hydrate` for the second variant. -/
def hydrate (l : ListAggV2) (events : List DomainEvent) : ListAggV2 :=
  let l := { l with committed := [], uncommitted := [], sequenceNo := 0 }
  events.foldl
    (fun l e =>
      let l := l.apply e
      { l with committed := l.committed ++ [e], sequenceNo := e.sequenceNo })
    l

/-- `new List(name, icon, color, description?, id?, version)`: the
description is forwarded to the 3-parameter ListMetadata constructor as an
extra argument, which JavaScript ignores. -/
def construct (name icon color : String) (description : Option String) (id : String)
    (version : Nat) (now : Nat) : Except String ListAggV2 := do
  let _ := description
  let m ← mkListMetadata name icon color
  .ok { id := id, version := version, sequenceNo := 0, committed := [],
        uncommitted := [], metadata := m, createdAt := now, updatedAt := now }

/-- `List.create` of the second variant. -/
def create (name icon color : String) (description : Option String) (id : String)
    (now : Nat) : Except String ListAggV2 := do
  let l ← construct name icon color description id 1 now
  let ev := createDomainEvent "ListCreated" (.listSnap l.snapshot) l.id
    (l.sequenceNo + 1) now
  .ok (l.applyEvent ev)

/-- `List.fromEvents` of the second variant: constructs
`new List('', '', '', undefined, id, 1)` and hydrates. -/
def fromEvents (id : String) (events : List DomainEvent) : Except String ListAggV2 := do
  let l ← construct "" "" "" none id 1 0
  .ok (l.hydrate events)

/-- `rename` of the second variant: no deleted guard. -/
def rename (l : ListAggV2) (newName : String) (now : Nat) :
    ListAggV2 × Option String :=
  if l.metadata.name = newName then (l, none)
  else
    match l.metadata.withName newName with
    | .error msg => (l, some msg)
    | .ok m =>
        let l := { l with metadata := m, updatedAt := now }
        let ev := createDomainEvent "ListUpdated" (.listSnap l.snapshot) l.id
          (l.sequenceNo + 1) now
        (l.applyEvent ev, none)

/-- `changeIcon` of the second variant. -/
def changeIcon (l : ListAggV2) (newIcon : String) (now : Nat) :
    ListAggV2 × Option String :=
  if l.metadata.icon = newIcon then (l, none)
  else
    match l.metadata.withIcon newIcon with
    | .error msg => (l, some msg)
    | .ok m =>
        let l := { l with metadata := m, updatedAt := now }
        let ev := createDomainEvent "ListUpdated" (.listSnap l.snapshot) l.id
          (l.sequenceNo + 1) now
        (l.applyEvent ev, none)

/-- `changeColor` of the second variant. -/
def changeColor (l : ListAggV2) (newColor : String) (now : Nat) :
    ListAggV2 × Option String :=
  if l.metadata.color = newColor then (l, none)
  else
    match l.metadata.withColor newColor with
    | .error msg => (l, some msg)
    | .ok m =>
        let l := { l with metadata := m, updatedAt := now }
        let ev := createDomainEvent "ListUpdated" (.listSnap l.snapshot) l.id
          (l.sequenceNo + 1) now
        (l.applyEvent ev, none)

/-- `delete` of the second variant: no guard and no flag; it stamps
`updatedAt` and emits a ListDeleted event on every call. -/
def delete (l : ListAggV2) (now : Nat) : ListAggV2 :=
  let l := { l with updatedAt := now }
  let ev := createDomainEvent "ListDeleted" (.listSnap l.snapshot) l.id
    (l.sequenceNo + 1) now
  l.applyEvent ev

/-- `addItem(itemId)` of the second variant: emit a CONTAINS TripleEvent,
no duplicate check, no guard. -/
def addItem (l : ListAggV2) (itemId : String) (now : Nat) :
    ListAggV2 × Option String :=
  let ev := createTripleEvent l.id Predicate.CONTAINS itemId l.id
    (l.sequenceNo + 1) now
  (l.applyEvent ev, none)

/-- `removeItem(itemId)` of the second variant: emits the same CONTAINS
TripleEvent as `addItem`. -/
def removeItem (l : ListAggV2) (itemId : String) (now : Nat) :
    ListAggV2 × Option String :=
  let ev := createTripleEvent l.id Predicate.CONTAINS itemId l.id
    (l.sequenceNo + 1) now
  (l.applyEvent ev, none)

end ListAggV2

/-! ### Item aggregate (src/domain/item/Item.ts) -/

structure ItemAgg where
  id : String
  name : String
  url : String
  type : String
  jsonLd : JsonLdPayload
  image : Option String
  description : Option String
  createdAt : Nat
  updatedAt : Nat
  deleted : Bool
  version : Nat
  sequenceNo : Nat
  committed : List DomainEvent
  uncommitted : List DomainEvent
deriving DecidableEq, Repr

namespace ItemAgg

/-- `toSnapshot` (Item.ts lines 195-208). -/
def toSnapshot (it : ItemAgg) : ItemSnapshot :=
  { id := it.id, name := it.name, url := it.url, image := it.image,
    description := it.description, type := it.type, jsonLd := it.jsonLd,
    createdAt := it.createdAt, updatedAt := it.updatedAt, deleted := it.deleted }

/-- Item does not override `apply`, so the Entity default (no state
change) runs during `applyEvent` and hydration. -/
def applyEvent (it : ItemAgg) (e : DomainEvent) : ItemAgg :=
  { it with sequenceNo := it.sequenceNo + 1, uncommitted := it.uncommitted ++ [e] }

/-- The Item constructor: plain field assignment, no validation. -/
def construct (id name url type : String) (jsonLd : JsonLdPayload)
    (image description : Option String) (now : Nat) : ItemAgg :=
  { id := id, name := name, url := url, type := type, jsonLd := jsonLd,
    image := image, description := description, createdAt := now,
    updatedAt := now, deleted := false, version := 1, sequenceNo := 0,
    committed := [], uncommitted := [] }

/-- `Item.create`: construct, emit ItemCreated carrying the item
(modelled by its snapshot) as payload. -/
def create (id name url type : String) (jsonLd : JsonLdPayload)
    (image description : Option String) (now : Nat) : ItemAgg :=
  let it := construct id name url type jsonLd image description now
  let ev := createDomainEvent "ItemCreated" (.itemSnap it.toSnapshot) it.id
    (it.sequenceNo + 1) now
  it.applyEvent ev

/-- `Item.delete`: early return when the flag is set, otherwise set it,
stamp `updatedAt` and emit ItemDeleted with the post-mutation snapshot. -/
def delete (it : ItemAgg) (now : Nat) : ItemAgg :=
  if it.deleted then it
  else
    let it := { it with deleted := true, updatedAt := now }
    let ev := createDomainEvent "ItemDeleted" (.itemSnap it.toSnapshot) it.id
      (it.sequenceNo + 1) now
    it.applyEvent ev

end ItemAgg

/-! ### Projection records and database state (src/unnamed/part_019).
Dexie tables are modelled as ordered lists of rows; a table with primary
key `id` refuses `add` on a duplicate key (the source catches that error),
`put` upserts and `delete` removes by key. The `triples` table has an
auto-increment primary key and a non-unique compound index. -/

structure ListProjection where
  id : String
  name : String
  icon : String
  color : String
  description : Option String
  created_at : Nat
  updated_at : Nat
deriving DecidableEq, Repr

structure ItemProjection where
  id : String
  name : String
  url : String
  image : Option String
  description : Option String
  type : String
  jsonLd : JsonLdPayload
  created_at : Nat
  updated_at : Nat
deriving DecidableEq, Repr

structure TripleRow where
  id : Nat
  subject : String
  predicate : String
  object : String
  created_at : Nat
deriving DecidableEq, Repr

structure DBState where
  listEvents : List DomainEvent
  itemEvents : List DomainEvent
  listProjections : List ListProjection
  itemProjections : List ItemProjection
  triples : List TripleRow
  nextTripleId : Nat
deriving DecidableEq, Repr

/-- A freshly created database: all tables empty, Dexie auto-increment
keys start at 1. -/
def emptyDB : DBState :=
  { listEvents := [], itemEvents := [], listProjections := [],
    itemProjections := [], triples := [], nextTripleId := 1 }

namespace DBState

/-- `listProjections.get(id)` on the primary key. -/
def getListProjection (s : DBState) (id : String) : Option ListProjection :=
  s.listProjections.find? (fun p => p.id == id)

/-- `itemProjections.get(id)` on the primary key. -/
def getItemProjection (s : DBState) (id : String) : Option ItemProjection :=
  s.itemProjections.find? (fun p => p.id == id)

/-- `createTriple`: builds the row with `createdAt = now` and `add`s it.
The primary key is the auto-increment `++id`, and the compound
`[subject+predicate+object]` index is not a uniqueness constraint, so the
insert always succeeds, even for a duplicate tuple. -/
def createTriple (s : DBState) (subject predicate object : String) (now : Nat) :
    DBState :=
  { s with
    triples := s.triples ++
      [{ id := s.nextTripleId, subject := subject, predicate := predicate,
         object := object, created_at := now }],
    nextTripleId := s.nextTripleId + 1 }

/-- `deleteTriple`: `where('[subject+predicate+object]').equals(...)` then
`delete()`, which removes every matching row. -/
def deleteTriple (s : DBState) (subject predicate object : String) : DBState :=
  { s with
    triples := s.triples.filter
      (fun t => !(t.subject == subject && t.predicate == predicate &&
                  t.object == object)) }

/-- `handleListCreated`: build a projection from the payload (id comes
from `event.aggregateId`) and `add` it; on a duplicate primary key Dexie
rejects and the surrounding catch leaves the table unchanged. A payload
without the List snapshot fields would make the handler fail on field
access, also caught: no change. -/
def handleListCreated (s : DBState) (e : DomainEvent) : DBState :=
  match e.data with
  | .listSnap d =>
      let proj : ListProjection :=
        { id := e.aggregateId, name := d.name, icon := d.icon, color := d.color,
          description := d.description, created_at := d.createdAt,
          updated_at := d.updatedAt }
      if (s.getListProjection e.aggregateId).isSome then s
      else { s with listProjections := s.listProjections ++ [proj] }
  | _ => s

/-- `handleListUpdated`: look up the existing projection; silently skip
when absent; otherwise overwrite the mutable fields and `put`. -/
def handleListUpdated (s : DBState) (e : DomainEvent) : DBState :=
  match e.data with
  | .listSnap d =>
      match s.getListProjection e.aggregateId with
      | some ex =>
          let upd : ListProjection :=
            { ex with name := d.name, icon := d.icon, color := d.color,
                      description := d.description, updated_at := d.updatedAt }
          { s with listProjections :=
              s.listProjections.map (fun p => if p.id == ex.id then upd else p) }
      | none => s
  | _ => s

/-- `handleListDeleted`: hard-delete the projection row by key. -/
def handleListDeleted (s : DBState) (e : DomainEvent) : DBState :=
  { s with listProjections :=
      s.listProjections.filter (fun p => !(p.id == e.aggregateId)) }

/-- `updateListProjection`: dispatch on the event type; unknown types fall
through the switch with no effect. -/
def updateListProjection (s : DBState) (e : DomainEvent) : DBState :=
  if e.type == "ListCreated" then s.handleListCreated e
  else if e.type == "ListUpdated" then s.handleListUpdated e
  else if e.type == "ListDeleted" then s.handleListDeleted e
  else s

/-- `handleItemCreated`: the projection id comes from the payload
(`itemData.id`), not from `event.aggregateId`. -/
def handleItemCreated (s : DBState) (e : DomainEvent) : DBState :=
  match e.data with
  | .itemSnap d =>
      let proj : ItemProjection :=
        { id := d.id, name := d.name, url := d.url, image := d.image,
          description := d.description, type := d.type, jsonLd := d.jsonLd,
          created_at := d.createdAt, updated_at := d.updatedAt }
      if (s.getItemProjection d.id).isSome then s
      else { s with itemProjections := s.itemProjections ++ [proj] }
  | _ => s

/-- `handleItemUpdated`: field-by-field coalesce. `name`, `url` and `type`
use JS `||` (an empty string keeps the old value); `image` and
`description` use an explicit undefined check; `jsonLd` uses `||` on an
object payload, which is always truthy here. -/
def handleItemUpdated (s : DBState) (e : DomainEvent) : DBState :=
  match e.data with
  | .itemSnap d =>
      match s.getItemProjection e.aggregateId with
      | some ex =>
          let upd : ItemProjection :=
            { ex with
              name := if d.name == "" then ex.name else d.name,
              url := if d.url == "" then ex.url else d.url,
              image := if d.image.isSome then d.image else ex.image,
              description := if d.description.isSome then d.description
                             else ex.description,
              type := if d.type == "" then ex.type else d.type,
              jsonLd := d.jsonLd,
              updated_at := d.updatedAt }
          { s with itemProjections :=
              s.itemProjections.map (fun p => if p.id == ex.id then upd else p) }
      | none => s
  | _ => s

/-- `handleItemDeleted`: hard-delete by `event.aggregateId`. -/
def handleItemDeleted (s : DBState) (e : DomainEvent) : DBState :=
  { s with itemProjections :=
      s.itemProjections.filter (fun p => !(p.id == e.aggregateId)) }

/-- `updateItemProjection`: dispatch on the event type. -/
def updateItemProjection (s : DBState) (e : DomainEvent) : DBState :=
  if e.type == "ItemCreated" then s.handleItemCreated e
  else if e.type == "ItemUpdated" then s.handleItemUpdated e
  else if e.type == "ItemDeleted" then s.handleItemDeleted e
  else s

/-- `handleTripleEvent` (part_019 lines 112-138): compares the payload
predicate against the literals "CONTAINS", "belongs_to" and "ORDERED_BY"
and creates a triple row on a match; every other predicate value falls
through with no effect. -/
def handleTripleEvent (s : DBState) (e : DomainEvent) (now : Nat) : DBState :=
  if e.type == "TripleEvent" then
    match e.data with
    | .triple subj pred objId =>
        if pred == "CONTAINS" || pred == "belongs_to" then
          s.createTriple subj pred objId now
        else if pred == "ORDERED_BY" then
          s.createTriple subj pred objId now
        else s
    | _ => s
  else s

end DBState

/-! ### Event store (src/stores/eventStore.ts) -/

/-- JS `String.prototype.startsWith`, modelled on the character list. -/
def strStartsWith (s pre : String) : Bool :=
  pre.toList.isPrefixOf s.toList

/-- The routing condition of `appendEvent`: an event is recognized when
its type starts with "List", starts with "Item", or equals "TripleEvent";
anything else falls off the end of the if-chain. -/
def recognizes (t : String) : Bool :=
  strStartsWith t "List" || strStartsWith t "Item" || t == "TripleEvent"

/-- `appendEvent`: route by type, append to the matching log, then run the
matching projection update synchronously. Unrecognized events are
discarded without error. -/
def appendEvent (s : DBState) (e : DomainEvent) (now : Nat) : DBState :=
  if strStartsWith e.type "List" then
    (({ s with listEvents := s.listEvents ++ [e] } : DBState)).updateListProjection e
  else if strStartsWith e.type "Item" then
    (({ s with itemEvents := s.itemEvents ++ [e] } : DBState)).updateItemProjection e
  else if e.type == "TripleEvent" then
    DBState.handleTripleEvent { s with listEvents := s.listEvents ++ [e] } e now
  else s

/-- `appendEvents`: categorize the batch, then per category bulk-append to
the log and run the projection updates in a sequential loop. -/
def appendEvents (s : DBState) (es : List DomainEvent) (now : Nat) : DBState :=
  let listEvs := es.filter (fun e => strStartsWith e.type "List")
  let itemEvs := es.filter (fun e => strStartsWith e.type "Item")
  let tripleEvs := es.filter (fun e => e.type == "TripleEvent")
  let s :=
    if listEvs.isEmpty then s
    else
      listEvs.foldl (fun s e => s.updateListProjection e)
        { s with listEvents := s.listEvents ++ listEvs }
  let s :=
    if itemEvs.isEmpty then s
    else
      itemEvs.foldl (fun s e => s.updateItemProjection e)
        { s with itemEvents := s.itemEvents ++ itemEvs }
  let s :=
    if tripleEvs.isEmpty then s
    else
      tripleEvs.foldl (fun s e => s.handleTripleEvent e now)
        { s with listEvents := s.listEvents ++ tripleEvs }
  s

/-! ### ItemService (src/unnamed/part_017) -/

/-- JS truthiness filter for optional strings: an empty string is falsy. -/
def truthy (o : Option String) : Option String :=
  match o with
  | some s => if s = "" then none else some s
  | none => none

/-- The `image` extraction of `extractNormalizedFields`: string payloads
pass through, objects contribute their truthy `url`, arrays contribute
their first element (string or object url). -/
def extractImage (img : Option JLImage) : Option String :=
  match img with
  | none => none
  | some (.jstr sVal) => some sVal
  | some (.jobj (some u)) => some u
  | some (.jobj none) => none
  | some (.jarr none) => none
  | some (.jarr (some (.estr sVal))) => some sVal
  | some (.jarr (some (.eobj u))) => u

/-- The normalized fields produced by `extractNormalizedFields`; `id` is
optional because the source can leave it `undefined`. -/
structure NormalizedFields where
  id : Option String
  name : String
  url : String
  image : Option String
  description : Option String
  type : String
deriving DecidableEq, Repr

/-- `ItemService.extractNormalizedFields`: id prefers `@id`, then `url`,
then `identifier` (the later `if (!id && jsonLd.url)` fallback can never
add anything, since `url` is already in the chain, and is folded in here);
name falls back to title, headline, then "Untitled"; url falls back to
`@id` and then `window.location.href` (passed in as `locationHref`). -/
def extractNormalizedFields (jsonLd : JsonLdPayload) (locationHref : String) :
    NormalizedFields :=
  let id := truthy jsonLd.atId <|> truthy jsonLd.url <|> truthy jsonLd.identifier
  let name := (truthy jsonLd.name <|> truthy jsonLd.title <|>
    truthy jsonLd.headline).getD "Untitled"
  let url := (truthy jsonLd.url <|> truthy jsonLd.atId).getD locationHref
  let image := extractImage jsonLd.image
  let description := truthy jsonLd.description <|> truthy jsonLd.summary <|>
    truthy jsonLd.abstract
  let type := (truthy jsonLd.atType).getD "Thing"
  { id := id, name := name, url := url, image := image,
    description := description, type := type }

/-- Result of `ItemService.createItem`: the database state after the call,
the returned projection (or none), and the events the call handed to
`eventStore.appendEvents`. -/
structure CreateItemResult where
  state : DBState
  result : Option ItemProjection
  appended : List DomainEvent
deriving DecidableEq, Repr

/-- `ItemService.createItem` (part_017 lines 77-112): normalize the
payload, return the existing projection when one with the same url exists
(`where('url').equals(url).first()`), otherwise build the Item aggregate,
append its uncommitted events through the event store and return the
projection now stored under the normalized id. When the extracted id is
`undefined` the emitted event still reaches the item event log, but the
projection insert and the final keyed get both fail (caught), so the
service returns null; the logged snapshot records the id as "". -/
def createItem (s : DBState) (jsonLdData : JsonLdPayload) (locationHref : String)
    (now : Nat) : CreateItemResult :=
  let nf := extractNormalizedFields jsonLdData locationHref
  match s.itemProjections.find? (fun r => r.url == nf.url) with
  | some existing => { state := s, result := some existing, appended := [] }
  | none =>
      match nf.id with
      | some i =>
          let item := ItemAgg.create i nf.name nf.url nf.type jsonLdData
            nf.image nf.description now
          let events := getAllUncommittedEvents item.uncommitted []
          let s := appendEvents s events now
          { state := s, result := s.getItemProjection i, appended := events }
      | none =>
          let item := ItemAgg.create "" nf.name nf.url nf.type jsonLdData
            nf.image nf.description now
          let events := getAllUncommittedEvents item.uncommitted []
          { state := { s with itemEvents := s.itemEvents ++ events },
            result := none, appended := events }

/-- `ItemService.linkItemToList`: a direct `createTriple` with the
"belongs_to" literal, bypassing the event log. -/
def linkItemToList (s : DBState) (itemId listId : String) (now : Nat) : DBState :=
  s.createTriple itemId "belongs_to" listId now

/-- `ItemService.unlinkItemFromList`: a direct `deleteTriple`. -/
def unlinkItemFromList (s : DBState) (itemId listId : String) : DBState :=
  s.deleteTriple itemId "belongs_to" listId

/-! ### Sample values used by witnesses -/

/-- A concrete JSON-LD payload with an `@id`, a `url`, a name and a type. -/
def samplePayload : JsonLdPayload :=
  { atId := some "urn:item-1", url := some "https://example.test/a",
    identifier := none, name := some "Sample", title := none, headline := none,
    image := none, description := none, summary := none, abstract := none,
    atType := some "Recipe" }

/-- A concrete Item aggregate fresh out of `Item.create`. -/
def sampleItem : ItemAgg :=
  ItemAgg.create "urn:item-1" "Sample" "https://example.test/a" "Recipe"
    samplePayload none none 0

/-- A concrete first-variant List aggregate with valid metadata. -/
def sampleListV1 : ListAggV1 :=
  { id := "list-1", version := 1, sequenceNo := 1, committed := [],
    uncommitted := [],
    metadata := { name := "Groceries", icon := "cart", color := "#00ff00" },
    createdAt := 0, updatedAt := 0, deleted := false }

/-- A concrete second-variant List aggregate with valid metadata. -/
def sampleListV2 : ListAggV2 :=
  { id := "list-2", version := 1, sequenceNo := 1, committed := [],
    uncommitted := [],
    metadata := { name := "Groceries", icon := "cart", color := "#00ff00" },
    createdAt := 0, updatedAt := 0 }

/-! ### Helper lemmas -/

theorem find?_append_none {α : Type} (p : α → Bool) {l1 : List α}
    (h : l1.find? p = none) (l2 : List α) :
    (l1 ++ l2).find? p = l2.find? p := by
  rw [List.find?_append, h, Option.none_or]

theorem find?_filter_not {α : Type} (p : α → Bool) (l : List α) :
    (l.filter (fun x => !(p x))).find? p = none := by
  rw [List.find?_eq_none]
  intro x hx
  rcases List.mem_filter.mp hx with ⟨_, h2⟩
  simp only [Bool.not_eq_true'] at h2
  simp [h2]

theorem tripleType_not_list : strStartsWith "TripleEvent" "List" = false := by decide

theorem tripleType_not_item : strStartsWith "TripleEvent" "Item" = false := by decide

theorem listCreated_starts_list : strStartsWith "ListCreated" "List" = true := by decide

theorem listDeleted_starts_list : strStartsWith "ListDeleted" "List" = true := by decide

theorem itemCreated_not_list : strStartsWith "ItemCreated" "List" = false := by decide

theorem itemCreated_starts_item : strStartsWith "ItemCreated" "Item" = true := by decide

theorem contains_beq_CONTAINS : ("contains" == "CONTAINS") = false := by decide

theorem contains_beq_belongs : ("contains" == "belongs_to") = false := by decide

theorem contains_beq_ORDERED : ("contains" == "ORDERED_BY") = false := by decide

theorem belongs_beq_CONTAINS : ("belongs_to" == "CONTAINS") = false := by decide

/-! ### Claim theorems -/

/-- C1: both variants of `List.fromEvents` begin by running the
constructor `new List('', '', '', ...)`, whose `ListMetadata` validation
throws "List name cannot be empty" before any event is replayed. So
reconstructing a List from the events produced by create and the mutators
never yields matching getters: it always throws, for every id and every
event sequence, contradicting the claimed replay round-trip. -/
theorem c1_fromEvents_always_throws (id : String) (events : List DomainEvent) :
    ListAggV2.fromEvents id events = .error "List name cannot be empty" ∧
    ListAggV1.fromEvents id events = .error "List name cannot be empty" := by
  constructor <;> rfl

/-- C7: `getAllUncommittedEvents` returns exactly the root events together
with every child entity's events (a permutation of their concatenation),
sorted ascending by `sequenceNo`, whatever order the buffers held them
in. -/
theorem c7_getAllUncommittedEvents_sorted (root : List DomainEvent)
    (children : List (List DomainEvent)) :
    List.Sorted seqLe (getAllUncommittedEvents root children) ∧
    (getAllUncommittedEvents root children).Perm (root ++ children.flatten) :=
  ⟨List.sorted_insertionSort seqLe _, List.perm_insertionSort seqLe _⟩

/-- C4 counterexample: linking the same item to the same list twice
(two `createTriple` calls with an identical (subject, predicate, object)
tuple) leaves two rows with that tuple in the triples table, so the tuple
is not a uniqueness key on creation. -/
theorem c4_counterexample :
    ((linkItemToList (linkItemToList emptyDB "item-1" "list-1" 3)
        "item-1" "list-1" 5).triples.filter
      (fun t => t.subject == "item-1" && t.predicate == "belongs_to" &&
        t.object == "list-1")).length = 2 := by decide

/-- C4 amended: creating a triple always appends a fresh auto-keyed row,
even when a row with the same (subject, predicate, object) tuple already
exists, so duplicates can accumulate; deleting by the tuple removes every
row carrying it, so deletion does remove the relationship entirely. -/
theorem c4_create_appends_delete_removes_all (s : DBState)
    (subject predicate object : String) (now : Nat) :
    (s.createTriple subject predicate object now).triples =
      s.triples ++
        [{ id := s.nextTripleId, subject := subject, predicate := predicate,
           object := object, created_at := now }] ∧
    ((s.deleteTriple subject predicate object).triples.filter
      (fun t => t.subject == subject && t.predicate == predicate &&
        t.object == object)) = [] := by
  refine ⟨rfl, ?_⟩
  simp [DBState.deleteTriple, List.filter_filter]

/-- C5: neither List variant rejects a duplicate `addItem`. Starting from
a freshly created list, adding the same item id twice reports no error on
the second call and leaves two CONTAINS TripleEvents in the uncommitted
buffer, where the claim (and the repository's own List.test.ts) expects
the second call to throw "Item item-1 is already in the list". -/
theorem c5_duplicate_addItem_not_rejected :
    ((ListAggV1.create "Test List" "pin" "#ff6b6b" "list-1" 0).toOption.map
      (fun l =>
        let r1 := l.addItem "item-1" 1
        let r2 := r1.1.addItem "item-1" 2
        (r2.2, (r2.1.uncommitted.filter (fun e => e.type == "TripleEvent")).length))
      = some (none, 2)) ∧
    ((ListAggV2.create "Test List" "pin" "#ff6b6b" none "list-2" 0).toOption.map
      (fun l =>
        let r1 := l.addItem "item-1" 1
        let r2 := r1.1.addItem "item-1" 2
        (r2.2, (r2.1.uncommitted.filter (fun e => e.type == "TripleEvent")).length))
      = some (none, 2)) := by
  constructor <;> decide

/-- C6 counterexample: on the second List variant (the one listService
uses), calling `delete()` twice on a freshly created list leaves two
ListDeleted events in the uncommitted buffer, not one. -/
theorem c6_counterexample :
    (ListAggV2.create "Test List" "pin" "#ff6b6b" none "list-2" 0).toOption.map
      (fun l =>
        (((l.delete 1).delete 2).uncommitted.filter
          (fun e => e.type == "ListDeleted")).length)
      = some 2 := by decide

/-- C6 amended: `Item.delete` and the first List variant's `delete` are
idempotent: for an undeleted aggregate the second call changes nothing and
exactly one *Deleted event is added in total; the second List variant has
no deleted flag, so every `delete()` call appends a ListDeleted event and
two calls leave two. -/
theorem c6_delete_idempotent_v1_item_not_v2 (it : ItemAgg) (l1 : ListAggV1)
    (l2 : ListAggV2) (t1 t2 : Nat)
    (hit : it.deleted = false) (hl1 : l1.deleted = false) :
    ((it.delete t1).delete t2 = it.delete t1 ∧
      ((it.delete t1).uncommitted.filter (fun e => e.type == "ItemDeleted")).length =
        (it.uncommitted.filter (fun e => e.type == "ItemDeleted")).length + 1) ∧
    ((l1.delete t1).delete t2 = l1.delete t1 ∧
      ((l1.delete t1).uncommitted.filter (fun e => e.type == "ListDeleted")).length =
        (l1.uncommitted.filter (fun e => e.type == "ListDeleted")).length + 1) ∧
    (((l2.delete t1).delete t2).uncommitted.filter
        (fun e => e.type == "ListDeleted")).length =
      (l2.uncommitted.filter (fun e => e.type == "ListDeleted")).length + 2 := by
  refine ⟨⟨?_, ?_⟩, ⟨?_, ?_⟩, ?_⟩
  · simp [ItemAgg.delete, ItemAgg.applyEvent, hit, createDomainEvent]
  · simp [ItemAgg.delete, ItemAgg.applyEvent, hit, createDomainEvent,
      List.filter_append]
  · simp [ListAggV1.delete, ListAggV1.applyEvent, ListAggV1.apply,
      ListAggV1.snapshot, hl1, createDomainEvent]
  · simp [ListAggV1.delete, ListAggV1.applyEvent, ListAggV1.apply,
      ListAggV1.snapshot, hl1, createDomainEvent, List.filter_append]
  · simp [ListAggV2.delete, ListAggV2.applyEvent, ListAggV2.apply,
      ListAggV2.snapshot, createDomainEvent, List.filter_append]

/-- C6 witness: the amended statement holds at a concrete fresh Item and
concrete lists of both variants. -/
theorem c6_delete_idempotent_witness :
    (sampleItem.deleted = false ∧ sampleListV1.deleted = false) ∧
    (((sampleItem.delete 1).delete 2 = sampleItem.delete 1 ∧
      ((sampleItem.delete 1).uncommitted.filter
        (fun e => e.type == "ItemDeleted")).length =
        (sampleItem.uncommitted.filter
          (fun e => e.type == "ItemDeleted")).length + 1) ∧
    ((sampleListV1.delete 1).delete 2 = sampleListV1.delete 1 ∧
      ((sampleListV1.delete 1).uncommitted.filter
        (fun e => e.type == "ListDeleted")).length =
        (sampleListV1.uncommitted.filter
          (fun e => e.type == "ListDeleted")).length + 1) ∧
    (((sampleListV2.delete 1).delete 2).uncommitted.filter
        (fun e => e.type == "ListDeleted")).length =
      (sampleListV2.uncommitted.filter
        (fun e => e.type == "ListDeleted")).length + 2) :=
  ⟨⟨by rfl, by rfl⟩,
    c6_delete_idempotent_v1_item_not_v2 sampleItem sampleListV1 sampleListV2 1 2
      (by rfl) (by rfl)⟩

/-- C3: handleTripleEvent compares the payload predicate against the
literal "CONTAINS", but the CONTAINS member of the Predicate enumeration
has the value "contains" (the value List.addItem emits), which matches
neither "CONTAINS" nor "belongs_to": the event reaches the log but no
triples row is inserted. A BELONGS_TO triple (value "belongs_to") does
insert a row. This contradicts the claim for the CONTAINS predicate. -/
theorem c3_contains_triple_never_materialized (s : DBState)
    (subjectId objectId aggId : String) (sq t now : Nat) :
    (appendEvent s
      (createTripleEvent subjectId Predicate.CONTAINS objectId aggId sq t)
      now).triples = s.triples ∧
    (appendEvent s
      (createTripleEvent subjectId Predicate.BELONGS_TO objectId aggId sq t)
      now).triples =
      s.triples ++
        [{ id := s.nextTripleId, subject := subjectId,
           predicate := Predicate.BELONGS_TO, object := objectId,
           created_at := now }] := by
  constructor <;>
    simp [appendEvent, createTripleEvent, DBState.handleTripleEvent,
      DBState.createTriple, Predicate.CONTAINS, Predicate.BELONGS_TO,
      tripleType_not_list, tripleType_not_item, contains_beq_CONTAINS,
      contains_beq_belongs, contains_beq_ORDERED, belongs_beq_CONTAINS]

/-- C8: every List mutator whose input fails value-object validation
(rename with an invalid name, changeIcon with an invalid icon, changeColor
with an invalid color — each differing from the current value, on an
aggregate whose current metadata passed the validations that run before
the failing one) returns exactly the thrown message and the untouched
aggregate, for both List variants: the error is raised inside the
ListMetadata constructor before the updated metadata is assigned, the
event is built or applyEvent runs, so uncommitted-event buffer, sequence
number and public state are unchanged. -/
theorem c8_invalid_mutator_rejected_before_event (l1 : ListAggV1)
    (l2 : ListAggV2) (newName newIcon newColor : String) (now : Nat)
    (msgN msgI msgC : String)
    (hdel : l1.deleted = false)
    (hn1 : validateName l1.metadata.name = .ok ())
    (hi1 : validateIcon l1.metadata.icon = .ok ())
    (hn2 : validateName l2.metadata.name = .ok ())
    (hi2 : validateIcon l2.metadata.icon = .ok ())
    (hneN1 : l1.metadata.name ≠ newName) (hneN2 : l2.metadata.name ≠ newName)
    (hneI1 : l1.metadata.icon ≠ newIcon) (hneI2 : l2.metadata.icon ≠ newIcon)
    (hneC1 : l1.metadata.color ≠ newColor) (hneC2 : l2.metadata.color ≠ newColor)
    (hvalN : validateName newName = .error msgN)
    (hvalI : validateIcon newIcon = .error msgI)
    (hvalC : validateColor newColor = .error msgC) :
    (l1.rename newName now = (l1, some msgN) ∧
      l2.rename newName now = (l2, some msgN)) ∧
    (l1.changeIcon newIcon now = (l1, some msgI) ∧
      l2.changeIcon newIcon now = (l2, some msgI)) ∧
    (l1.changeColor newColor now = (l1, some msgC) ∧
      l2.changeColor newColor now = (l2, some msgC)) := by
  refine ⟨⟨?_, ?_⟩, ⟨?_, ?_⟩, ⟨?_, ?_⟩⟩
  · simp [ListAggV1.rename, hdel, hneN1, ListMetadata.withName, mkListMetadata,
      hvalN, Bind.bind, Except.bind]
  · simp [ListAggV2.rename, hneN2, ListMetadata.withName, mkListMetadata,
      hvalN, Bind.bind, Except.bind]
  · simp [ListAggV1.changeIcon, hdel, hneI1, ListMetadata.withIcon,
      mkListMetadata, hn1, hvalI, Bind.bind, Except.bind]
  · simp [ListAggV2.changeIcon, hneI2, ListMetadata.withIcon, mkListMetadata,
      hn2, hvalI, Bind.bind, Except.bind]
  · simp [ListAggV1.changeColor, hdel, hneC1, ListMetadata.withColor,
      mkListMetadata, hn1, hi1, hvalC, Bind.bind, Except.bind]
  · simp [ListAggV2.changeColor, hneC2, ListMetadata.withColor, mkListMetadata,
      hn2, hi2, hvalC, Bind.bind, Except.bind]

/-- C8 witness: on concrete valid lists of both variants, renaming to the
empty string, changing the icon to the empty string and changing the color
to "not-a-color" each fail with the constructor message and leave the
aggregate untouched. -/
theorem c8_invalid_mutator_witness :
    (sampleListV1.deleted = false ∧
      validateName sampleListV1.metadata.name = .ok () ∧
      validateIcon sampleListV1.metadata.icon = .ok () ∧
      validateName sampleListV2.metadata.name = .ok () ∧
      validateIcon sampleListV2.metadata.icon = .ok () ∧
      sampleListV1.metadata.name ≠ "" ∧ sampleListV2.metadata.name ≠ "" ∧
      sampleListV1.metadata.icon ≠ "" ∧ sampleListV2.metadata.icon ≠ "" ∧
      sampleListV1.metadata.color ≠ "not-a-color" ∧
      sampleListV2.metadata.color ≠ "not-a-color" ∧
      validateName "" = .error "List name cannot be empty" ∧
      validateIcon "" = .error "List icon cannot be empty" ∧
      validateColor "not-a-color" =
        .error "List color must be a valid hex color (#RRGGBB) or CSS color name") ∧
    ((sampleListV1.rename "" 0 = (sampleListV1, some "List name cannot be empty") ∧
      sampleListV2.rename "" 0 = (sampleListV2, some "List name cannot be empty")) ∧
    (sampleListV1.changeIcon "" 0 =
        (sampleListV1, some "List icon cannot be empty") ∧
      sampleListV2.changeIcon "" 0 =
        (sampleListV2, some "List icon cannot be empty")) ∧
    (sampleListV1.changeColor "not-a-color" 0 =
        (sampleListV1,
          some "List color must be a valid hex color (#RRGGBB) or CSS color name") ∧
      sampleListV2.changeColor "not-a-color" 0 =
        (sampleListV2,
          some "List color must be a valid hex color (#RRGGBB) or CSS color name"))) :=
  ⟨⟨by rfl, by rfl, by rfl, by rfl, by rfl, by decide, by decide, by decide,
      by decide, by decide, by decide, by rfl, by rfl, by rfl⟩,
    c8_invalid_mutator_rejected_before_event sampleListV1 sampleListV2
      "" "" "not-a-color" 0 "List name cannot be empty"
      "List icon cannot be empty"
      "List color must be a valid hex color (#RRGGBB) or CSS color name"
      (by rfl) (by rfl) (by rfl) (by rfl) (by rfl) (by decide) (by decide)
      (by decide) (by decide) (by decide) (by decide) (by rfl) (by rfl)
      (by rfl)⟩

/-- C10: an event whose type neither starts with "List" nor "Item" and is
not "TripleEvent" is silently dropped by appendEvent (the state, logs and
projections are untouched and no error is raised), and appendEvents
behaves exactly as if the unrecognized events had been filtered out of the
batch, so recognized events in the same batch are still persisted and
projected. -/
theorem c10_unrecognized_events_discarded (e : DomainEvent) (s : DBState)
    (now : Nat) (es : List DomainEvent) (h : recognizes e.type = false) :
    appendEvent s e now = s ∧
    appendEvents s es now =
      appendEvents s (es.filter (fun x => recognizes x.type)) now := by
  have h' := h
  simp only [recognizes, Bool.or_eq_false_iff] at h'
  obtain ⟨⟨hL, hI⟩, hT⟩ := h'
  constructor
  · simp [appendEvent, hL, hI, hT]
  · have eqL : (es.filter (fun x => recognizes x.type)).filter
        (fun x => strStartsWith x.type "List") =
        es.filter (fun x => strStartsWith x.type "List") := by
      rw [List.filter_filter]
      apply List.filter_congr
      intro x _
      cases hc : strStartsWith x.type "List" <;> simp [recognizes, hc]
    have eqI : (es.filter (fun x => recognizes x.type)).filter
        (fun x => strStartsWith x.type "Item") =
        es.filter (fun x => strStartsWith x.type "Item") := by
      rw [List.filter_filter]
      apply List.filter_congr
      intro x _
      cases hc : strStartsWith x.type "Item" <;> simp [recognizes, hc]
    have eqT : (es.filter (fun x => recognizes x.type)).filter
        (fun x => x.type == "TripleEvent") =
        es.filter (fun x => x.type == "TripleEvent") := by
      rw [List.filter_filter]
      apply List.filter_congr
      intro x _
      cases hc : (x.type == "TripleEvent") <;> simp [recognizes, hc]
    simp only [appendEvents, eqL, eqI, eqT]

/-- C10 witness: a batch holding a recognized ListCreated event and an
unrecognized "AuditTrail" event is processed exactly like the batch with
the unrecognized event filtered away, and appending the unrecognized event
alone leaves the fresh database untouched. -/
theorem c10_unrecognized_events_witness :
    recognizes ("AuditTrail" : String) = false ∧
    (appendEvent emptyDB
        { type := "AuditTrail", data := .other, timestamp := 0,
          aggregateId := "a", sequenceNo := 1 } 7 = emptyDB ∧
      appendEvents emptyDB
          [{ type := "AuditTrail", data := .other, timestamp := 0,
             aggregateId := "a", sequenceNo := 1 }] 7 =
        appendEvents emptyDB
          ([{ type := "AuditTrail", data := .other, timestamp := 0,
              aggregateId := "a", sequenceNo := 1 }].filter
            (fun x => recognizes x.type)) 7) :=
  ⟨by decide,
    c10_unrecognized_events_discarded
      { type := "AuditTrail", data := .other, timestamp := 0,
        aggregateId := "a", sequenceNo := 1 }
      emptyDB 7
      [{ type := "AuditTrail", data := .other, timestamp := 0,
         aggregateId := "a", sequenceNo := 1 }]
      (by decide)⟩

/-- C2: appending a ListCreated event for an aggregate id with no existing
projection row stores a projection keyed by that id whose name, icon and
color (and description and timestamps) come from the event payload
snapshot; appending a ListDeleted event for the same id afterwards leaves
no projection row for it. -/
theorem c2_projection_follows_create_then_delete (s : DBState)
    (e : DomainEvent) (d : ListSnapshot) (X : String) (now : Nat)
    (htype : e.type = "ListCreated") (hagg : e.aggregateId = X)
    (hdata : e.data = .listSnap d)
    (habsent : s.getListProjection X = none) :
    ((appendEvent s e now).getListProjection X =
      some { id := X, name := d.name, icon := d.icon, color := d.color,
             description := d.description, created_at := d.createdAt,
             updated_at := d.updatedAt }) ∧
    (∀ (e2 : DomainEvent) (now2 : Nat), e2.type = "ListDeleted" →
      e2.aggregateId = X →
      (appendEvent (appendEvent s e now) e2 now2).getListProjection X = none) := by
  have hstep : appendEvent s e now =
      DBState.handleListCreated
        { s with listEvents := s.listEvents ++ [e] } e := by
    simp [appendEvent, htype, listCreated_starts_list,
      DBState.updateListProjection]
  have habsent' : ({ s with listEvents := s.listEvents ++ [e] } :
      DBState).getListProjection X = none := by
    simpa [DBState.getListProjection] using habsent
  have hcreated : appendEvent s e now =
      { s with
        listEvents := s.listEvents ++ [e],
        listProjections := s.listProjections ++
          [{ id := X, name := d.name, icon := d.icon, color := d.color,
             description := d.description, created_at := d.createdAt,
             updated_at := d.updatedAt }] } := by
    rw [hstep]
    simp [DBState.handleListCreated, hdata, habsent', hagg]
  constructor
  · rw [hcreated]
    simp only [DBState.getListProjection]
    rw [find?_append_none _ habsent]
    simp [List.find?]
  · intro e2 now2 h2type h2agg
    rw [hcreated]
    simp only [appendEvent, h2type, listDeleted_starts_list, if_pos,
      DBState.updateListProjection]
    simp only [DBState.handleListDeleted, DBState.getListProjection, h2agg]
    exact find?_filter_not _ _

/-- C2 witness: on a fresh database, appending a concrete ListCreated
event for "list-9" stores the matching projection, and a subsequent
ListDeleted event removes it. -/
theorem c2_projection_witness :
    (({ type := "ListCreated", data := .listSnap
          { name := "Groceries", icon := "cart", color := "#00ff00",
            description := none, createdAt := 4, updatedAt := 4,
            deleted := false }, timestamp := 4, aggregateId := "list-9",
        sequenceNo := 1 } : DomainEvent).type = "ListCreated" ∧
      emptyDB.getListProjection "list-9" = none) ∧
    ((appendEvent emptyDB
        { type := "ListCreated", data := .listSnap
            { name := "Groceries", icon := "cart", color := "#00ff00",
              description := none, createdAt := 4, updatedAt := 4,
              deleted := false }, timestamp := 4, aggregateId := "list-9",
          sequenceNo := 1 } 4).getListProjection "list-9" =
      some { id := "list-9", name := "Groceries", icon := "cart",
             color := "#00ff00", description := none, created_at := 4,
             updated_at := 4 }) ∧
    (∀ (e2 : DomainEvent) (now2 : Nat), e2.type = "ListDeleted" →
      e2.aggregateId = "list-9" →
      (appendEvent (appendEvent emptyDB
        { type := "ListCreated", data := .listSnap
            { name := "Groceries", icon := "cart", color := "#00ff00",
              description := none, createdAt := 4, updatedAt := 4,
              deleted := false }, timestamp := 4, aggregateId := "list-9",
          sequenceNo := 1 } 4) e2 now2).getListProjection "list-9" = none) :=
  ⟨⟨rfl, by rfl⟩,
    c2_projection_follows_create_then_delete emptyDB
      { type := "ListCreated", data := .listSnap
          { name := "Groceries", icon := "cart", color := "#00ff00",
            description := none, createdAt := 4, updatedAt := 4,
            deleted := false }, timestamp := 4, aggregateId := "list-9",
        sequenceNo := 1 }
      { name := "Groceries", icon := "cart", color := "#00ff00",
        description := none, createdAt := 4, updatedAt := 4, deleted := false }
      "list-9" 4 rfl rfl rfl (by rfl)⟩

theorem itemCreated_beq_tripleEvent : ("ItemCreated" == "TripleEvent") = false := by
  decide

/-- C9: two createItem calls whose payloads normalize to the same url
deduplicate: on a database with no row for that url (and none under the
extracted id), the first call appends exactly one event (the ItemCreated)
and stores one projection row; the second call returns that same
projection (same id), appends no event, and leaves the database state
exactly as the first call left it, so no second row is created. -/
theorem c9_createItem_dedups_by_url (s : DBState) (p1 p2 : JsonLdPayload)
    (href1 href2 : String) (t1 t2 : Nat) (i u : String)
    (hid : (extractNormalizedFields p1 href1).id = some i)
    (hurl1 : (extractNormalizedFields p1 href1).url = u)
    (hurl2 : (extractNormalizedFields p2 href2).url = u)
    (hnoUrl : s.itemProjections.find? (fun r => r.url == u) = none)
    (hnoId : s.getItemProjection i = none) :
    ∃ proj : ItemProjection, proj.id = i ∧
      (createItem s p1 href1 t1).result = some proj ∧
      (createItem s p1 href1 t1).appended.length = 1 ∧
      createItem (createItem s p1 href1 t1).state p2 href2 t2 =
        { state := (createItem s p1 href1 t1).state, result := some proj,
          appended := [] } := by
  have key1 : createItem s p1 href1 t1 =
      { state := { s with
          itemEvents := s.itemEvents ++
            [{ type := "ItemCreated", data := .itemSnap
                 { id := i, name := (extractNormalizedFields p1 href1).name,
                   url := u, image := (extractNormalizedFields p1 href1).image,
                   description := (extractNormalizedFields p1 href1).description,
                   type := (extractNormalizedFields p1 href1).type,
                   jsonLd := p1, createdAt := t1, updatedAt := t1,
                   deleted := false },
               timestamp := t1, aggregateId := i, sequenceNo := 1 }],
          itemProjections := s.itemProjections ++
            [{ id := i, name := (extractNormalizedFields p1 href1).name,
               url := u, image := (extractNormalizedFields p1 href1).image,
               description := (extractNormalizedFields p1 href1).description,
               type := (extractNormalizedFields p1 href1).type, jsonLd := p1,
               created_at := t1, updated_at := t1 }] },
        result := some
          { id := i, name := (extractNormalizedFields p1 href1).name,
            url := u, image := (extractNormalizedFields p1 href1).image,
            description := (extractNormalizedFields p1 href1).description,
            type := (extractNormalizedFields p1 href1).type, jsonLd := p1,
            created_at := t1, updated_at := t1 },
        appended :=
          [{ type := "ItemCreated", data := .itemSnap
               { id := i, name := (extractNormalizedFields p1 href1).name,
                 url := u, image := (extractNormalizedFields p1 href1).image,
                 description := (extractNormalizedFields p1 href1).description,
                 type := (extractNormalizedFields p1 href1).type,
                 jsonLd := p1, createdAt := t1, updatedAt := t1,
                 deleted := false },
             timestamp := t1, aggregateId := i, sequenceNo := 1 }] } := by
    simp only [createItem, hurl1, hid, hnoUrl]
    simp only [ItemAgg.create, ItemAgg.construct, ItemAgg.applyEvent,
      ItemAgg.toSnapshot, createDomainEvent, getAllUncommittedEvents,
      sortBySeq, List.flatten_nil, List.append_nil, List.insertionSort,
      List.orderedInsert, appendEvents, List.filter_cons, List.filter_nil,
      itemCreated_not_list, itemCreated_starts_item, itemCreated_beq_tripleEvent,
      Bool.false_eq_true, if_false, if_true, List.isEmpty_nil, List.isEmpty_cons,
      List.foldl_cons, List.foldl_nil, DBState.updateItemProjection,
      DBState.handleItemCreated, beq_self_eq_true, if_true]
    simp only [DBState.getItemProjection] at hnoId ⊢
    simp only [hnoId, Option.isSome_none, Bool.false_eq_true, if_false]
    rw [find?_append_none _ hnoId]
    simp [List.find?]
  refine ⟨{ id := i, name := (extractNormalizedFields p1 href1).name,
            url := u, image := (extractNormalizedFields p1 href1).image,
            description := (extractNormalizedFields p1 href1).description,
            type := (extractNormalizedFields p1 href1).type, jsonLd := p1,
            created_at := t1, updated_at := t1 }, rfl, ?_, ?_, ?_⟩
  · rw [key1]
  · rw [key1]
    rfl
  · rw [key1]
    simp only [createItem, hurl2]
    rw [find?_append_none _ hnoUrl]
    simp [List.find?]

/-- C9 witness: creating the same concrete payload twice on a fresh
database returns the same projection both times, appends one event the
first time and none the second, and leaves the state of the first call
untouched. -/
theorem c9_createItem_dedups_witness :
    ((extractNormalizedFields samplePayload "https://fallback.test").id =
        some "urn:item-1" ∧
      (extractNormalizedFields samplePayload "https://fallback.test").url =
        "https://example.test/a" ∧
      emptyDB.itemProjections.find?
        (fun r => r.url == "https://example.test/a") = none ∧
      emptyDB.getItemProjection "urn:item-1" = none) ∧
    (∃ proj : ItemProjection, proj.id = "urn:item-1" ∧
      (createItem emptyDB samplePayload "https://fallback.test" 0).result =
        some proj ∧
      (createItem emptyDB samplePayload "https://fallback.test" 0).appended.length
        = 1 ∧
      createItem (createItem emptyDB samplePayload "https://fallback.test" 0).state
          samplePayload "https://fallback.test" 1 =
        { state := (createItem emptyDB samplePayload
            "https://fallback.test" 0).state,
          result := some proj, appended := [] }) :=
  ⟨⟨by decide, by decide, by rfl, by rfl⟩,
    c9_createItem_dedups_by_url emptyDB samplePayload samplePayload
      "https://fallback.test" "https://fallback.test" 0 1 "urn:item-1"
      "https://example.test/a" (by decide) (by decide) (by decide)
      (by rfl) (by rfl)⟩

end Listicle
